import Mathlib

/-
Verification development for the PlaywrightUI recorder and post-processing
pipeline (src/src/recorder.py and src/src/postprocess.py).

The Python source is shallowly embedded:
 * pure string functions are translated to Lean functions over `List Char`
   (ASCII semantics; the Python code only manipulates ASCII identifiers,
   selectors and Playwright action lines);
 * the browser-driven login loops are embedded as loops over an abstract
   observation oracle: the page state that each iteration inspects is a
   parameter of the model, and every I/O-dependent branch of the loop body
   becomes a case of the observation;
 * Python `None`/values become `Option`, Python truthiness on optional
   strings becomes `pyTruthy`.
-/

namespace PlaywrightUI

/-- Strings are modelled as lists of characters so that the Python
character-by-character operations (`re.sub`, `str.replace`, `str.strip`)
can be written as structural recursions. -/
abbrev Str := List Char

/-- The single-quote character (ASCII 39). -/
def squoteChar : Char := Char.ofNat 39

/-- The double-quote character (ASCII 34). -/
def dquoteChar : Char := Char.ofNat 34

/- ===================================================================
   Part 1: the login retry loop
   (recorder.py, perform_login_with_retry, lines 1134-1435, and the
   identically structured embedded template d365_auto_login, lines
   480-924).
   =================================================================== -/

/-- Result of the part of one login attempt that follows the initial
`check_for_login_error` check, abstracted as an oracle: the body of the
attempt is pure I/O (selector polling, form filling, waiting), and each
of its exits is one of three control outcomes in the source —
`return True` (success), `return False` (failure), or `continue`
(start the next attempt of the `for attempt in range(max_retries + 1)`
loop). -/
inductive AttemptOutcome where
  | success : AttemptOutcome
  | failure : AttemptOutcome
  | retryNext : AttemptOutcome
deriving DecidableEq

/-- Embedding of the attempt loop of `perform_login_with_retry`
(recorder.py lines 1136-1435; the embedded `d365_auto_login` template,
lines 499-924, has the same control skeleton).  `attempt` is the loop
variable of `for attempt in range(max_retries + 1)` and `fuel` the number
of iterations remaining.  Each iteration first consults
`check_for_login_error` (modelled by the oracle `pageError`, indexed by
the attempt number); on an error it `continue`s when `attempt <
max_retries` and otherwise returns `False`.  Otherwise the rest of the
body runs, modelled by the oracle `body`.  When the range is exhausted
the function returns `False` (source line 1435).  The second component
counts the attempts that were started. -/
def performLoginWithRetryAux (pageError : Nat → Bool) (body : Nat → AttemptOutcome)
    (max_retries : Nat) : Nat → Nat → Bool × Nat
  | attempt, 0 => (false, attempt)
  | attempt, fuel + 1 =>
    if pageError attempt then
      if attempt < max_retries then
        performLoginWithRetryAux pageError body max_retries (attempt + 1) fuel
      else
        (false, attempt + 1)
    else
      match body attempt with
      | .success => (true, attempt + 1)
      | .failure => (false, attempt + 1)
      | .retryNext => performLoginWithRetryAux pageError body max_retries (attempt + 1) fuel

/-- `perform_login_with_retry(page, max_retries)` .  The Python `for`
loop executes at most `max_retries + 1` iterations, which is the initial
fuel. -/
def perform_login_with_retry (pageError : Nat → Bool) (body : Nat → AttemptOutcome)
    (max_retries : Nat) : Bool × Nat :=
  performLoginWithRetryAux pageError body max_retries 0 (max_retries + 1)

/-- Helper: when every attempt sees a provider error, the loop walks
through all remaining attempts and ends with failure. -/
theorem loginRetryAux_allErrors (pageError : Nat → Bool) (body : Nat → AttemptOutcome)
    (max_retries : Nat) (h : ∀ n, pageError n = true) :
    ∀ fuel attempt, attempt + fuel = max_retries →
      performLoginWithRetryAux pageError body max_retries attempt (fuel + 1) =
        (false, max_retries + 1) := by
  intro fuel
  induction fuel with
  | zero =>
    intro attempt ha
    simp only [Nat.add_zero] at ha
    subst ha
    simp [performLoginWithRetryAux, h attempt]
  | succ f ih =>
    intro attempt ha
    have hlt : attempt < max_retries := by omega
    have : performLoginWithRetryAux pageError body max_retries attempt (f + 1 + 1) =
        performLoginWithRetryAux pageError body max_retries (attempt + 1) (f + 1) := by
      simp [performLoginWithRetryAux, h attempt, hlt]
    rw [this]
    exact ih (attempt + 1) (by omega)

/-- C1: when a known provider error code is detected at the start of
every attempt, `perform_login_with_retry` returns `False`, and exactly
`max_retries + 1` attempts (iterations of the attempt loop) are
executed before termination. -/
theorem login_retry_fails_after_budget (pageError : Nat → Bool)
    (body : Nat → AttemptOutcome) (max_retries : Nat)
    (h : ∀ n, pageError n = true) :
    perform_login_with_retry pageError body max_retries = (false, max_retries + 1) := by
  unfold perform_login_with_retry
  exact loginRetryAux_allErrors pageError body max_retries h max_retries 0 (by omega)

/-- Witness for C1: with the default `max_retries = 2` and a page that
always reports an error, the loop returns failure after exactly 3
attempts. -/
theorem login_retry_fails_after_budget_witness :
    perform_login_with_retry (fun _ => true) (fun _ => AttemptOutcome.retryNext) 2 =
      (false, 3) :=
  login_retry_fails_after_budget (fun _ => true) (fun _ => AttemptOutcome.retryNext) 2
    (fun _ => rfl)

/- ===================================================================
   Part 2: the MFA inner navigation loop
   (recorder.py, perform_login_with_retry, lines 1311-1407).
   =================================================================== -/

/-- Observable page state inspected by one iteration of the MFA
navigation loop, in the order the source queries it:
`totpFieldVisible` — `page.query_selector('#idTxtBx_SAOTCC_OTC')` finds
the TOTP input (STATE 1); `pushLinkVisible` — the push-notification
"I can't use my Microsoft Authenticator app right now" link is visible
(STATE 2); `verificationOption` — one of the "Use a verification code"
selectors is visible or the text locator finds at least one element
(STATE 3); `mfaErrorText` — the page content contains a transient MFA
error string (STATE 4); `mfaIndicator` — the page content contains one
of the generic MFA indicators (STATE 5). -/
structure MfaObs where
  totpFieldVisible : Bool
  pushLinkVisible : Bool
  verificationOption : Bool
  mfaErrorText : Bool
  mfaIndicator : Bool
deriving DecidableEq

/-- What one iteration of the MFA loop body does with an observation. -/
inductive MfaStepKind where
  | foundTotp : MfaStepKind
  | clickReloop : MfaStepKind
  | waitReloop : MfaStepKind
  | exitNotMfa : MfaStepKind
deriving DecidableEq

/-- One iteration of the MFA loop body (recorder.py lines 1320-1407),
checking STATE 1 through STATE 5 in source order: a visible TOTP field
sets `totp_field_found` and breaks; a push screen or an options screen
is clicked away and the loop `continue`s; an MFA error string or a
generic MFA page waits and `continue`s; otherwise the loop breaks
without finding the TOTP field. -/
def mfaStep (o : MfaObs) : MfaStepKind :=
  if o.totpFieldVisible then MfaStepKind.foundTotp
  else if o.pushLinkVisible then MfaStepKind.clickReloop
  else if o.verificationOption then MfaStepKind.clickReloop
  else if o.mfaErrorText then MfaStepKind.waitReloop
  else if o.mfaIndicator then MfaStepKind.waitReloop
  else MfaStepKind.exitNotMfa

/-- Embedding of `while mfa_attempt < mfa_max_attempts and not
totp_field_found` (recorder.py line 1316).  `attempt` is the current
value of `mfa_attempt` and `fuel = mfa_max_attempts - mfa_attempt`; the
oracle `obs` gives the page observed by iteration `attempt + 1`.
Returns `(totp_field_found, final mfa_attempt)`. -/
def mfaNavigateAux (obs : Nat → MfaObs) : Nat → Nat → Bool × Nat
  | attempt, 0 => (false, attempt)
  | attempt, fuel + 1 =>
    match mfaStep (obs attempt) with
    | MfaStepKind.foundTotp => (true, attempt + 1)
    | MfaStepKind.exitNotMfa => (false, attempt + 1)
    | MfaStepKind.clickReloop => mfaNavigateAux obs (attempt + 1) fuel
    | MfaStepKind.waitReloop => mfaNavigateAux obs (attempt + 1) fuel

/-- The MFA navigation loop with `mfa_max_attempts = 10` and
`mfa_attempt = 0` (recorder.py lines 1312-1314). -/
def mfa_navigate (obs : Nat → MfaObs) : Bool × Nat :=
  mfaNavigateAux obs 0 10

/-- Helper: the loop counter never advances past `attempt + fuel`. -/
theorem mfaNavigateAux_le (obs : Nat → MfaObs) :
    ∀ fuel attempt, (mfaNavigateAux obs attempt fuel).2 ≤ attempt + fuel := by
  intro fuel
  induction fuel with
  | zero => intro attempt; simp [mfaNavigateAux]
  | succ f ih =>
    intro attempt
    unfold mfaNavigateAux
    cases mfaStep (obs attempt) with
    | foundTotp => simp
    | exitNotMfa => simp
    | clickReloop =>
      simp only
      have := ih (attempt + 1)
      omega
    | waitReloop =>
      simp only
      have := ih (attempt + 1)
      omega

/-- The MFA options/method-chooser screen: no TOTP field, no push link,
the "Use a verification code" option is present, generic MFA indicators
are present. -/
def mfaOptionsObs : MfaObs :=
  { totpFieldVisible := false, pushLinkVisible := false, verificationOption := true,
    mfaErrorText := false, mfaIndicator := true }

/-- The push-notification screen: the "I can't use my Microsoft
Authenticator app right now" link is visible. -/
def mfaPushObs : MfaObs :=
  { totpFieldVisible := false, pushLinkVisible := true, verificationOption := false,
    mfaErrorText := false, mfaIndicator := true }

/-- The TOTP input screen: the `#idTxtBx_SAOTCC_OTC` field is present. -/
def mfaTotpObs : MfaObs :=
  { totpFieldVisible := true, pushLinkVisible := false, verificationOption := false,
    mfaErrorText := false, mfaIndicator := true }

/-- The page sequence [options-screen, push-screen, TOTP-screen]. -/
def mfaExampleSeq : Nat → MfaObs := fun n =>
  if n = 0 then mfaOptionsObs else if n = 1 then mfaPushObs else mfaTotpObs

/-- C2: the MFA inner loop executes at most 10 iterations for every
observation sequence, and on the page sequence
[options-screen, push-screen, TOTP-screen] it finds the TOTP input
field (and proceeds to TOTP submission) in exactly 3 iterations. -/
theorem mfa_loop_bounded_and_example_reaches_totp :
    (∀ obs : Nat → MfaObs, (mfa_navigate obs).2 ≤ 10) ∧
      mfa_navigate mfaExampleSeq = (true, 3) := by
  constructor
  · intro obs
    have := mfaNavigateAux_le obs 10 0
    simpa [mfa_navigate] using this
  · rfl

/- ===================================================================
   Part 3: string machinery shared by the embeddings
   =================================================================== -/

/-- Python `str.lower()` at the character level (ASCII; `Char.toLower`
lowercases exactly the basic latin letters, which is what every call
site in the source feeds it). -/
def lowerStr (s : Str) : Str := s.map Char.toLower

/-- Python `needle in haystack` substring containment. -/
def containsSubstr : Str → Str → Bool
  | [], needle => needle == []
  | h@(_ :: rest), needle => needle.isPrefixOf h || containsSubstr rest needle

/- ===================================================================
   Part 4: the value classifier
   (postprocess.py, TestAnalyzer._detect_input_type, lines 108-132,
   with the patterns of lines 88-95).
   =================================================================== -/

/-- The detected input types (postprocess.py, `InputType`). -/
inductive InputType where
  | text : InputType
  | number : InputType
  | date : InputType
  | email : InputType
  | select : InputType
  | click_text : InputType
  | unknown : InputType
deriving DecidableEq

/-- `re.match` of the date pattern `\d{4}-\d{2}-\d{2}` — a prefix match:
the string starts with four digits, a dash, two digits, a dash, two
digits. -/
def dateMatchYMD : Str → Bool
  | a :: b :: c :: d :: e :: f :: g :: h :: i :: j :: _ =>
    a.isDigit && b.isDigit && c.isDigit && d.isDigit && (e == '-') &&
      f.isDigit && g.isDigit && (h == '-') && i.isDigit && j.isDigit
  | _ => false

/-- `re.match` of the date pattern `\d{2}/\d{2}/\d{4}` (prefix match). -/
def dateMatchSlash : Str → Bool
  | a :: b :: c :: d :: e :: f :: g :: h :: i :: j :: _ =>
    a.isDigit && b.isDigit && (c == '/') && d.isDigit && e.isDigit &&
      (f == '/') && g.isDigit && h.isDigit && i.isDigit && j.isDigit
  | _ => false

/-- `re.match` of the date pattern `\d{2}-\d{2}-\d{4}` (prefix match). -/
def dateMatchDMY : Str → Bool
  | a :: b :: c :: d :: e :: f :: g :: h :: i :: j :: _ =>
    a.isDigit && b.isDigit && (c == '-') && d.isDigit && e.isDigit &&
      (f == '-') && g.isDigit && h.isDigit && i.isDigit && j.isDigit
  | _ => false

/-- The `DATE_PATTERNS` loop of `_detect_input_type` (lines 111-113):
`re.match` of any of the three fixed date patterns. -/
def dateMatch (s : Str) : Bool :=
  dateMatchYMD s || dateMatchSlash s || dateMatchDMY s

/-- Character class `[a-zA-Z0-9_.+-]` of the email local part. -/
def isEmailLocalChar (c : Char) : Bool :=
  c.isAlphanum || c == '_' || c == '.' || c == '+' || c == '-'

/-- Character class `[a-zA-Z0-9-]` of the email domain head. -/
def isEmailDomainChar (c : Char) : Bool :=
  c.isAlphanum || c == '-'

/-- Character class `[a-zA-Z0-9-.]` of the email domain tail. -/
def isEmailTailChar (c : Char) : Bool :=
  c.isAlphanum || c == '-' || c == '.'

/-- Full match of `EMAIL_PATTERN = ^[a-zA-Z0-9_.+-]+@[a-zA-Z0-9-]+\.[a-zA-Z0-9-.]+$`
(line 94).  Since `@` is in no character class, the local part is the
maximal run of local characters before the first `@`; since `.` is not a
domain-head character, the head is the maximal run of domain characters
and must be followed by a literal `.`; the tail runs to the end of the
string. -/
def emailMatch (s : Str) : Bool :=
  let loc := s.takeWhile isEmailLocalChar
  match s.dropWhile isEmailLocalChar with
  | c :: dom =>
    (c == '@') && !loc.isEmpty &&
      (let p2 := dom.takeWhile isEmailDomainChar
       match dom.dropWhile isEmailDomainChar with
       | d :: tail => (d == '.') && !p2.isEmpty && !tail.isEmpty && tail.all isEmailTailChar
       | [] => false)
  | [] => false

/-- Full match of `NUMBER_PATTERN = ^-?\d+\.?\d*$` (line 95). -/
def numberMatch (s : Str) : Bool :=
  let t := match s with
    | c :: r => if c == '-' then r else s
    | [] => s
  !(t.takeWhile Char.isDigit).isEmpty &&
    (match t.dropWhile Char.isDigit with
     | [] => true
     | c :: r2 => (c == '.') && r2.all Char.isDigit)

/-- Selector hint `any(hint in selector_lower for hint in ['email', 'mail'])`
(line 125). -/
def hintEmail (selector : Str) : Bool :=
  containsSubstr (lowerStr selector) ("email".toList) ||
    containsSubstr (lowerStr selector) ("mail".toList)

/-- Selector hint for `['date', 'calendar']` (line 127). -/
def hintDate (selector : Str) : Bool :=
  containsSubstr (lowerStr selector) ("date".toList) ||
    containsSubstr (lowerStr selector) ("calendar".toList)

/-- Selector hint for `['number', 'amount', 'quantity', 'qty', 'price']`
(line 129). -/
def hintNumber (selector : Str) : Bool :=
  containsSubstr (lowerStr selector) ("number".toList) ||
    containsSubstr (lowerStr selector) ("amount".toList) ||
    containsSubstr (lowerStr selector) ("quantity".toList) ||
    containsSubstr (lowerStr selector) ("qty".toList) ||
    containsSubstr (lowerStr selector) ("price".toList)

/-- Embedding of `TestAnalyzer._detect_input_type` (lines 108-132):
date patterns first, then the email pattern, then the number pattern,
then selector hints, else `text`. -/
def detect_input_type (value selector : Str) : InputType :=
  if dateMatch value then InputType.date
  else if emailMatch value then InputType.email
  else if numberMatch value then InputType.number
  else if hintEmail selector then InputType.email
  else if hintDate selector then InputType.date
  else if hintNumber selector then InputType.number
  else InputType.text

/-- Counterexample for C3: `2024-01-15@ex.com` is a syntactically valid
email according to `EMAIL_PATTERN`, yet the classifier returns `date`,
because the date patterns are prefix matches (`re.match`) and are
checked first.  So "every syntactically valid email is classified
email" is false. -/
theorem email_value_classified_date_counterexample :
    emailMatch ("2024-01-15@ex.com".toList) = true ∧
      detect_input_type ("2024-01-15@ex.com".toList) [] ≠ InputType.email ∧
      detect_input_type ("2024-01-15@ex.com".toList) [] = InputType.date := by
  refine ⟨by decide, by decide, by decide⟩

/-- C3 (amended): the classifier applies, in order: date-prefix match →
email match → number match → selector hints (email/mail, then
date/calendar, then number/amount/quantity/qty/price) → `text`.  In
particular a syntactically valid email is classified `email` only when
no date pattern matches a prefix of it. -/
theorem detect_input_type_priority (value selector : Str) :
    (dateMatch value = true → detect_input_type value selector = InputType.date) ∧
    (dateMatch value = false → emailMatch value = true →
      detect_input_type value selector = InputType.email) ∧
    (dateMatch value = false → emailMatch value = false → numberMatch value = true →
      detect_input_type value selector = InputType.number) ∧
    (dateMatch value = false → emailMatch value = false → numberMatch value = false →
      hintEmail selector = true → detect_input_type value selector = InputType.email) ∧
    (dateMatch value = false → emailMatch value = false → numberMatch value = false →
      hintEmail selector = false → hintDate selector = true →
      detect_input_type value selector = InputType.date) ∧
    (dateMatch value = false → emailMatch value = false → numberMatch value = false →
      hintEmail selector = false → hintDate selector = false → hintNumber selector = true →
      detect_input_type value selector = InputType.number) ∧
    (dateMatch value = false → emailMatch value = false → numberMatch value = false →
      hintEmail selector = false → hintDate selector = false → hintNumber selector = false →
      detect_input_type value selector = InputType.text) := by
  refine ⟨?_, ?_, ?_, ?_, ?_, ?_, ?_⟩ <;>
    (intros; simp [detect_input_type, *])

/-- Witness for C3: the amended priority theorem applied on concrete
values exercising the date, email, number, hint and text branches. -/
theorem detect_input_type_priority_witness :
    detect_input_type ("2024-03-15".toList) [] = InputType.date ∧
      detect_input_type ("user@ex.com".toList) [] = InputType.email ∧
      detect_input_type ("-12.5".toList) [] = InputType.number ∧
      detect_input_type ("hello".toList) ("input#email".toList) = InputType.email ∧
      detect_input_type ("hello".toList) [] = InputType.text :=
  ⟨(detect_input_type_priority _ _).1 (by decide),
   (detect_input_type_priority _ _).2.1 (by decide) (by decide),
   (detect_input_type_priority _ _).2.2.1 (by decide) (by decide) (by decide),
   (detect_input_type_priority _ _).2.2.2.1 (by decide) (by decide) (by decide) (by decide),
   (detect_input_type_priority _ _).2.2.2.2.2.2 (by decide) (by decide) (by decide)
     (by decide) (by decide) (by decide)⟩

/- ===================================================================
   Part 5: the Code Cleaner second pass
   (recorder.py, PlaywrightRecorder._cleanup_recorded_code,
   lines 254-322).
   =================================================================== -/

/-- Python regex `\s` on the characters that can occur in a single
recorded line (ASCII whitespace). -/
def isPySpace (c : Char) : Bool :=
  c == ' ' || c == '\t' || c == '\n' || c == '\r' ||
    c == Char.ofNat 12 || c == Char.ofNat 11

/-- The regex character class `["\']`: either quote character. -/
def quoteTok (c : Char) : Bool :=
  c == dquoteChar || c == squoteChar

/-- Matcher for the regex fragment `["\']WORD["\']\s*\)` (with `\s*`
only present in the `div`/`span` patterns), applied to the rest of the
line after a literal prefix. -/
def quotedWordParen (word : Str) (allowSpaces : Bool) (s : Str) : Bool :=
  match s with
  | q1 :: rest =>
    quoteTok q1 && word.isPrefixOf rest &&
      (match rest.drop word.length with
       | q2 :: rest2 =>
         quoteTok q2 &&
           (let rest3 := if allowSpaces then rest2.dropWhile isPySpace else rest2
            match rest3 with
            | c :: _ => c == ')'
            | [] => false)
       | [] => false)
  | [] => false

/-- The `patterns_to_remove` list of `_cleanup_recorded_code` (lines
259-269), each applied with `re.match` (prefix match). -/
def patternsToRemove (line : Str) : Bool :=
  (("page.click(".toList).isPrefixOf line &&
      quotedWordParen ("body".toList) false (line.drop (("page.click(".toList).length))) ||
  (("page.click(".toList).isPrefixOf line &&
      quotedWordParen ("html".toList) false (line.drop (("page.click(".toList).length))) ||
  ("page.wait_for_timeout(0)".toList).isPrefixOf line ||
  (("page.click(".toList).isPrefixOf line &&
      quotedWordParen ("div".toList) true (line.drop (("page.click(".toList).length))) ||
  (("page.click(".toList).isPrefixOf line &&
      quotedWordParen ("span".toList) true (line.drop (("page.click(".toList).length))) ||
  ("page.mouse.move(".toList).isPrefixOf line ||
  (("page.hover(".toList).isPrefixOf line &&
      quotedWordParen ("body".toList) false (line.drop (("page.hover(".toList).length))) ||
  (("page.focus(".toList).isPrefixOf line &&
      quotedWordParen ("body".toList) false (line.drop (("page.focus(".toList).length))) ||
  (("page.focus(".toList).isPrefixOf line &&
      quotedWordParen ("html".toList) false (line.drop (("page.focus(".toList).length)))

/-- The `login_patterns` list (lines 272-280): `re.match(r'.*X.*', line)`
is substring containment of the literal `X`. -/
def loginMarkers : List Str :=
  [("input[type=".toList ++ [dquoteChar] ++ "email".toList ++ [dquoteChar] ++ "]".toList),
   ("input[type=".toList ++ [dquoteChar] ++ "password".toList ++ [dquoteChar] ++ "]".toList),
   "login.microsoftonline.com".toList,
   "idSIButton9".toList,
   "idBtn_Back".toList,
   "#idTxtBx_SAOTCC_OTC".toList,
   "#idSubmit_SAOTCC_Continue".toList]

/-- Does the line match any identity-provider login marker? -/
def matchesLoginMarker (line : Str) : Bool :=
  loginMarkers.any (fun m => containsSubstr line m)

/-- Decimal value of a digit run. -/
def digitsToNat (ds : Str) : Nat :=
  ds.foldl (fun acc c => acc * 10 + (c.toNat - 48)) 0

/-- The short-timeout check (lines 303-307):
`re.match(r'^page\.wait_for_timeout\((\d+)\)', line)` and the captured
number is below 100. -/
def timeoutTooShort (line : Str) : Bool :=
  let pre := "page.wait_for_timeout(".toList
  pre.isPrefixOf line &&
    (let rest := line.drop pre.length
     let ds := rest.takeWhile Char.isDigit
     !ds.isEmpty &&
       (match rest.dropWhile Char.isDigit with
        | c :: _ => (c == ')') && decide (digitsToNat ds < 100)
        | [] => false))

/-- Length of a match of `,?\s*storage_state="[^"]*"` starting at the
head of `s` without the optional comma. -/
def storageSubTail (s : Str) : Option Nat :=
  let ws := s.takeWhile isPySpace
  let r := s.drop ws.length
  let lit := "storage_state=".toList ++ [dquoteChar]
  if lit.isPrefixOf r then
    let r2 := r.drop lit.length
    let body := r2.takeWhile (fun c => !(c == dquoteChar))
    match r2.drop body.length with
    | c :: _ => if c == dquoteChar then some (ws.length + lit.length + body.length + 1) else none
    | [] => none
  else none

/-- Length of a match of `,?\s*storage_state="[^"]*"` starting at the
head of `s` (the optional comma is tried first, as the regex engine
does). -/
def storageMatchAt (s : Str) : Option Nat :=
  match s with
  | c :: r =>
    if c == ',' then
      match storageSubTail r with
      | some n => some (n + 1)
      | none => storageSubTail s
    else storageSubTail s
  | [] => storageSubTail s

/-- `re.sub(r',?\s*storage_state="[^"]*"', '', line)`: replace every
non-overlapping leftmost match by the empty string.  Fuelled scan; the
fuel `length + 1` suffices because every step consumes at least one
character. -/
def reSubStorageAux : Nat → Str → Str
  | 0, s => s
  | fuel + 1, s =>
    match storageMatchAt s with
    | some n => reSubStorageAux fuel (s.drop n)
    | none =>
      match s with
      | [] => []
      | c :: r => c :: reSubStorageAux fuel r

/-- The full storage-state substitution. -/
def reSubStorage (s : Str) : Str := reSubStorageAux (s.length + 1) s

/-- Lines 310-311 of `_cleanup_recorded_code`: the substitution is
applied only when the line mentions both `storage_state=` and
`playwright_auth_state`. -/
def stripStorageLine (line : Str) : Str :=
  if containsSubstr line ("storage_state=".toList) &&
      containsSubstr line ("playwright_auth_state".toList) then
    reSubStorage line
  else line

/-- The removal decision of one loop iteration (lines 282-307): fixed
removal patterns, login markers, a consecutive duplicate click
(`line.startswith('page.click(') and prev_line == line`), or a
sub-100ms timeout. -/
def shouldRemoveLine (prev line : Str) : Bool :=
  patternsToRemove line || matchesLoginMarker line ||
    (("page.click(".toList).isPrefixOf line && prev == line) ||
    timeoutTooShort line

/-- The cleanup loop over the extracted page actions (lines 282-316):
kept lines are indented by four spaces and become the new `prev_line`
(after the storage-state strip); removed lines leave `prev_line`
unchanged. -/
def cleanupActionsAux : Str → List Str → List Str
  | _, [] => []
  | prev, line :: rest =>
    if shouldRemoveLine prev line then cleanupActionsAux prev rest
    else
      ("    ".toList ++ stripStorageLine line) ::
        cleanupActionsAux (stripStorageLine line) rest

/-- Trailing blank lines are popped (lines 319-320). -/
def dropTrailingBlank (ls : List Str) : List Str :=
  ls.foldr (fun l acc => if acc.isEmpty && l.all isPySpace then [] else l :: acc) []

/-- The second pass of `_cleanup_recorded_code` on the extracted page
actions, with the initial `prev_line = ""`. -/
def cleanup_recorded_actions (page_actions : List Str) : List Str :=
  dropTrailingBlank (cleanupActionsAux [] page_actions)

/-- Counterexample for C5: a recording consisting of two consecutive
identical click actions on the selector `body` produces an empty
cleaned output — both occurrences are removed (the `body`-click removal
pattern fires on each), so the cleaned output does not contain "only
one of them". -/
theorem cleaner_duplicate_click_counterexample :
    cleanup_recorded_actions
        ["page.click(\"body\")".toList, "page.click(\"body\")".toList] = [] := by
  decide

/-- C5 (amended): the second of two consecutive identical click actions
is never kept — processing the pair is the same as processing a single
occurrence (so at most one of the two survives; for a click that
matches no removal rule exactly the first survives); a
`page.wait_for_timeout(50)` action is always removed; a
`page.wait_for_timeout(150)` action is always retained (indented) in
the output.  The duplicate-collapse statement assumes the line is not
rewritten by the storage-state strip (a storage-state rewrite changes
the stored `prev_line`, which is what the duplicate check compares
against). -/
theorem cleaner_dedup_and_waits :
    (∀ (prev line : Str) (rest : List Str),
        (("page.click(".toList).isPrefixOf line) = true →
        stripStorageLine line = line →
        cleanupActionsAux prev (line :: line :: rest) =
          cleanupActionsAux prev (line :: rest)) ∧
    (∀ (prev : Str) (rest : List Str),
        cleanupActionsAux prev ("page.wait_for_timeout(50)".toList :: rest) =
          cleanupActionsAux prev rest) ∧
    (∀ (prev : Str) (rest : List Str),
        cleanupActionsAux prev ("page.wait_for_timeout(150)".toList :: rest) =
          "    page.wait_for_timeout(150)".toList ::
            cleanupActionsAux ("page.wait_for_timeout(150)".toList) rest) := by
  refine ⟨?_, ?_, ?_⟩
  · intro prev line rest hpre hstrip
    by_cases hrm : shouldRemoveLine prev line = true
    · simp [cleanupActionsAux, hrm]
    · have hrm2 : shouldRemoveLine prev line = false := by
        rw [Bool.eq_false_iff]
        exact hrm
      have hdup : shouldRemoveLine line line = true := by
        unfold shouldRemoveLine
        rw [hpre]
        simp
      simp [cleanupActionsAux, hrm2, hdup, hstrip]
  · intro prev rest
    have hto : timeoutTooShort ("page.wait_for_timeout(50)".toList) = true := by decide
    have hpc : (("page.click(".toList).isPrefixOf ("page.wait_for_timeout(50)".toList)) =
        false := by decide
    have hrm : shouldRemoveLine prev ("page.wait_for_timeout(50)".toList) = true := by
      unfold shouldRemoveLine
      rw [hto, hpc]
      simp
    simp only [cleanupActionsAux, hrm]
    simp
  · intro prev rest
    have h1 : patternsToRemove ("page.wait_for_timeout(150)".toList) = false := by decide
    have h2 : matchesLoginMarker ("page.wait_for_timeout(150)".toList) = false := by decide
    have h3 : (("page.click(".toList).isPrefixOf ("page.wait_for_timeout(150)".toList)) =
        false := by decide
    have h4 : timeoutTooShort ("page.wait_for_timeout(150)".toList) = false := by decide
    have hrm : shouldRemoveLine prev ("page.wait_for_timeout(150)".toList) = false := by
      unfold shouldRemoveLine
      rw [h1, h2, h3, h4]
      simp
    have h5 : stripStorageLine ("page.wait_for_timeout(150)".toList) =
        "page.wait_for_timeout(150)".toList := by decide
    have h6 : "    ".toList ++ "page.wait_for_timeout(150)".toList =
        "    page.wait_for_timeout(150)".toList := by decide
    simp only [cleanupActionsAux, hrm, h5, h6]
    simp

/-- Witness for C5: the three parts of the amended statement applied on
concrete lines. -/
theorem cleaner_dedup_and_waits_witness :
    cleanupActionsAux [] ["page.click(\"#SaveButton\")".toList,
        "page.click(\"#SaveButton\")".toList] =
      cleanupActionsAux [] ["page.click(\"#SaveButton\")".toList] ∧
    cleanupActionsAux [] ["page.wait_for_timeout(50)".toList] = cleanupActionsAux [] [] ∧
    cleanupActionsAux [] ["page.wait_for_timeout(150)".toList] =
      ["    page.wait_for_timeout(150)".toList] :=
  ⟨cleaner_dedup_and_waits.1 [] ("page.click(\"#SaveButton\")".toList) [] (by decide)
      (by decide),
   cleaner_dedup_and_waits.2.1 [] [],
   cleaner_dedup_and_waits.2.2 [] []⟩

/-- Embedding of the `goto` handling of `TestAnalyzer.analyze`
(postprocess.py lines 214-219): a `page.goto` value produces no
detected input when the URL mentions the dynamics environment or
microsoft (`'dynamics' in value.lower() or 'microsoft' in value.lower()`). -/
def analyze_goto_skipped (value : Str) : Bool :=
  containsSubstr (lowerStr value) ("dynamics".toList) ||
    containsSubstr (lowerStr value) ("microsoft".toList)

/-- Counterexample for C6: a navigation to the dynamics environment is
NOT dropped by the Code Cleaner — the cleaned output retains it (no
cleanup rule matches `page.goto` lines). -/
theorem cleaner_keeps_dynamics_goto_counterexample :
    cleanup_recorded_actions ["page.goto(\"https://org.dynamics.com/\")".toList] =
      ["    page.goto(\"https://org.dynamics.com/\")".toList] := by
  decide

/-- C6 (amended): the Code Cleaner retains `page.goto` navigations —
shown on a concrete dynamics-environment navigation; the skipping of
primary-domain navigations happens in the Input Post-Processor instead:
`TestAnalyzer.analyze` produces no detected input for a `goto` whose
URL contains `dynamics` (or `microsoft`) case-insensitively. -/
theorem dynamics_goto_retained_by_cleaner_skipped_by_analyzer :
    (∀ value : Str, containsSubstr (lowerStr value) ("dynamics".toList) = true →
        analyze_goto_skipped value = true) ∧
    (∀ value : Str, containsSubstr (lowerStr value) ("microsoft".toList) = true →
        analyze_goto_skipped value = true) ∧
    cleanup_recorded_actions
        ["page.goto(\"https://contoso.crm.dynamics.com/main.aspx\")".toList] =
      ["    page.goto(\"https://contoso.crm.dynamics.com/main.aspx\")".toList] := by
  refine ⟨?_, ?_, by decide⟩
  · intro value h
    unfold analyze_goto_skipped
    rw [h]
    simp
  · intro value h
    unfold analyze_goto_skipped
    rw [h]
    simp

/-- Witness for C6: the analyzer-skip parts applied on concrete URLs. -/
theorem dynamics_goto_retained_witness :
    analyze_goto_skipped ("https://org.operations.dynamics.com/".toList) = true ∧
      analyze_goto_skipped ("https://login.microsoft.com/".toList) = true :=
  ⟨dynamics_goto_retained_by_cleaner_skipped_by_analyzer.1 _ (by decide),
   dynamics_goto_retained_by_cleaner_skipped_by_analyzer.2.1 _ (by decide)⟩

/- ===================================================================
   Part 6: detected inputs and the test modifier
   (postprocess.py, DetectedInput lines 26-46, TestModifier lines
   274-361).
   =================================================================== -/

/-- Python truthiness of an optional string: `None` and the empty
string are falsy. -/
def pyTruthy : Option Str → Bool
  | none => false
  | some s => !s.isEmpty

/-- Embedding of the `DetectedInput` dataclass (postprocess.py lines
26-46).  Python `None` becomes `none`; `line_number` is an `int`. -/
structure DetectedInput where
  line_number : Int
  original_line : Str
  value : Str
  input_type : InputType
  selector : Str
  action : Str
  variable_name : Option Str
  new_value : Option Str
deriving DecidableEq

/-- The `display_value` property (lines 38-41): the new value when it
`is not None`, otherwise the original value. -/
def DetectedInput.display_value (inp : DetectedInput) : Str :=
  match inp.new_value with
  | some v => v
  | none => inp.value

/-- The `is_modified` property (lines 43-46): either field `is not
None`. -/
def DetectedInput.is_modified (inp : DetectedInput) : Bool :=
  inp.variable_name.isSome || inp.new_value.isSome

/-- Python `str.replace(pat, rep)` with a nonempty `pat` (every call
site concatenates quotes around the pattern): replace each leftmost
non-overlapping occurrence.  Fuelled scan; `length + 1` fuel suffices
because every step consumes at least one character. -/
def replaceAllAux : Nat → Str → Str → Str → Str
  | 0, s, _, _ => s
  | fuel + 1, s, pat, rep =>
    if !pat.isEmpty && pat.isPrefixOf s then
      rep ++ replaceAllAux fuel (s.drop pat.length) pat rep
    else
      match s with
      | [] => []
      | c :: r => c :: replaceAllAux fuel r pat rep

/-- Python `s.replace(pat, rep)` for nonempty `pat`. -/
def replaceAll (s pat rep : Str) : Str :=
  replaceAllAux (s.length + 1) s pat rep

/-- The f-string `f'get_var("{name}")'` of line 324. -/
def getVarCall (name : Str) : Str :=
  "get_var(".toList ++ [dquoteChar] ++ name ++ [dquoteChar] ++ ")".toList

/-- The f-string `f'"{v}"'`: the value wrapped in double quotes. -/
def dquoted (v : Str) : Str := dquoteChar :: (v ++ [dquoteChar])

/-- The f-string `f"'{v}'"`: the value wrapped in single quotes. -/
def squoted (v : Str) : Str := squoteChar :: (v ++ [squoteChar])

/-- The per-input line rewrite of `apply_modifications` (lines 322-332):
a truthy variable name replaces both quoted forms of the value with the
`get_var` lookup; otherwise a truthy new value replaces them with the
quoted new value; otherwise the line is unchanged. -/
def rewriteInputLine (inp : DetectedInput) (line : Str) : Str :=
  if pyTruthy inp.variable_name then
    replaceAll (replaceAll line (dquoted inp.value) (getVarCall (inp.variable_name.getD [])))
      (squoted inp.value) (getVarCall (inp.variable_name.getD []))
  else if pyTruthy inp.new_value then
    replaceAll (replaceAll line (dquoted inp.value) (dquoted (inp.new_value.getD [])))
      (squoted inp.value) (squoted (inp.new_value.getD []))
  else line

/-- One iteration of the line-modification loop (lines 312-334):
unmodified inputs are skipped, out-of-range line numbers are skipped,
otherwise the addressed line is rewritten in place. -/
def applyOneInput (ls : List Str) (inp : DetectedInput) : List Str :=
  if !inp.is_modified then ls
  else
    let idx : Int := inp.line_number - 1
    if idx < 0 || (ls.length : Int) ≤ idx then ls
    else ls.set idx.toNat (rewriteInputLine inp (ls.getD idx.toNat []))

/-- Insertion-ordered dict assignment `variables[name] = value`. -/
def dictUpsert (d : List (Str × Str)) (k v : Str) : List (Str × Str) :=
  if d.any (fun p => p.1 == k) then
    d.map (fun p => if p.1 == k then (k, v) else p)
  else d ++ [(k, v)]

/-- The variable-collection loop of `apply_modifications` (lines
305-309): every input with a truthy variable name contributes
`variables[name] = new_value if new_value else value`. -/
def collectVariables (inputs : List DetectedInput) : List (Str × Str) :=
  inputs.foldl
    (fun d inp =>
      if pyTruthy inp.variable_name then
        dictUpsert d (inp.variable_name.getD [])
          (if pyTruthy inp.new_value then inp.new_value.getD [] else inp.value)
      else d)
    []

/-- Python `code.split('\n')`. -/
def splitLines : Str → List Str
  | [] => [[]]
  | c :: rest =>
    if c == '\n' then [] :: splitLines rest
    else
      match splitLines rest with
      | l :: ls => (c :: l) :: ls
      | [] => [[c]]

/-- Python `'\n'.join(lines)`. -/
def joinLines (ls : List Str) : Str := List.intercalate ['\n'] ls

/-- The left brace character, ASCII 123. -/
def lbraceChar : Char := Char.ofNat 123

/-- The right brace character, ASCII 125. -/
def rbraceChar : Char := Char.ofNat 125

/-- Escaping of a variable value for the generated Python source
(line 350): backslashes are doubled, then double quotes are
backslash-escaped. -/
def escapeVarValue (v : Str) : Str :=
  replaceAll (replaceAll v ['\\'] ['\\', '\\']) [dquoteChar] ['\\', dquoteChar]

/-- One generated line of the `TEST_VARIABLES` dict (line 351):
`    "NAME": "VALUE",`. -/
def varLine (p : Str × Str) : Str :=
  "    ".toList ++ [dquoteChar] ++ p.1 ++ [dquoteChar] ++ ": ".toList ++
    [dquoteChar] ++ escapeVarValue p.2 ++ [dquoteChar] ++ [',']

/-- Length of a match of `TEST_VARIABLES\s*=\s*\x7b[^\x7d]*\x7d`
starting at the head of `s`. -/
def testVarsMatchAt (s : Str) : Option Nat :=
  let lit := "TEST_VARIABLES".toList
  if lit.isPrefixOf s then
    let r := s.drop lit.length
    let ws1 := r.takeWhile isPySpace
    match r.drop ws1.length with
    | c :: r3 =>
      if c == '=' then
        let ws2 := r3.takeWhile isPySpace
        match r3.drop ws2.length with
        | d :: r5 =>
          if d == lbraceChar then
            let body := r5.takeWhile (fun x => !(x == rbraceChar))
            match r5.drop body.length with
            | e :: _ =>
              if e == rbraceChar then
                some (lit.length + ws1.length + 1 + ws2.length + 1 + body.length + 1)
              else none
            | [] => none
          else none
        | [] => none
      else none
    | [] => none
  else none

/-- The `re.sub` of `_update_variables_dict` (line 359): every match of
the `TEST_VARIABLES` dict pattern is replaced by `rep`. -/
def reSubTestVarsAux (rep : Str) : Nat → Str → Str
  | 0, s => s
  | fuel + 1, s =>
    match testVarsMatchAt s with
    | some n => rep ++ reSubTestVarsAux rep fuel (s.drop n)
    | none =>
      match s with
      | [] => []
      | c :: r => c :: reSubTestVarsAux rep fuel r

/-- Embedding of `TestModifier._update_variables_dict` (lines 344-361). -/
def update_variables_dict (code : Str) (vs : List (Str × Str)) : Str :=
  let newDictContent := List.intercalate ['\n'] (vs.map varLine)
  let replacement := "TEST_VARIABLES = ".toList ++ [lbraceChar] ++ ['\n'] ++
    newDictContent ++ ['\n'] ++ [rbraceChar]
  reSubTestVarsAux replacement (code.length + 1) code

/-- Embedding of the `TestModifier` state (lines 279-287): the original
code and its split into lines, both set once by `__init__` and never
reassigned by any method. -/
structure TestModifier where
  original_code : Str
  lines : List Str

/-- `TestModifier.__init__` (lines 279-287). -/
def TestModifier.ofCode (code : Str) : TestModifier :=
  { original_code := code, lines := splitLines code }

/-- Embedding of `TestModifier.apply_modifications` (lines 289-342):
variables are collected from the inputs, each modified input rewrites
its addressed line (starting from a copy of the stored original lines),
and when any variable was collected the joined code additionally gets a
regenerated `TEST_VARIABLES` dict. -/
def apply_modifications (m : TestModifier) (inputs : List DetectedInput) : Str :=
  let modified := inputs.foldl applyOneInput m.lines
  let vs := collectVariables inputs
  if !vs.isEmpty then update_variables_dict (joinLines modified) vs
  else joinLines modified

/-- `apply_modifications` as a method call: the Python body writes only
locals (`modified_lines` is a copy of `self.lines`), so the post-state
of the modifier equals its pre-state. -/
def apply_modifications_method (m : TestModifier) (inputs : List DetectedInput) :
    Str × TestModifier :=
  (apply_modifications m inputs, m)

/-- Helper: writing back the element already stored at a valid index
leaves the list unchanged. -/
theorem list_set_getD {α : Type} (d : α) :
    ∀ (l : List α) (i : Nat), i < l.length → l.set i (l.getD i d) = l := by
  intro l
  induction l with
  | nil => intro i h; simp at h
  | cons a t ih =>
    intro i h
    cases i with
    | zero => simp [List.getD]
    | succ n =>
      simp only [List.getD, List.set, List.getElem?_cons_succ, List.length_cons] at *
      rw [List.cons.injEq]
      refine ⟨rfl, ?_⟩
      have := ih n (by omega)
      simpa [List.getD] using this

/-- Helper: an input with an empty variable name and no new value leaves
the line array untouched. -/
theorem applyOneInput_empty_name (ls : List Str) (inp : DetectedInput)
    (h1 : inp.variable_name = some []) (h2 : inp.new_value = none) :
    applyOneInput ls inp = ls := by
  unfold applyOneInput
  have hmod : inp.is_modified = true := by
    unfold DetectedInput.is_modified
    rw [h1]
    simp
  rw [hmod]
  simp only [Bool.not_true, Bool.false_eq_true, if_false]
  split
  · rfl
  · rename_i hb
    have hrw : rewriteInputLine inp (ls.getD (inp.line_number - 1).toNat []) =
        ls.getD (inp.line_number - 1).toNat [] := by
      unfold rewriteInputLine
      rw [h1, h2]
      simp [pyTruthy]
    rw [hrw]
    apply list_set_getD
    simp only [Bool.or_eq_true, decide_eq_true_eq, not_or] at hb
    push_neg at hb
    omega

/-- C8: an input whose variable name is the empty string and whose new
value is `None` passes through `apply_modifications` without effect:
the produced code is the same as if the input were absent (in
particular its source line stays byte-identical), and it contributes no
entry to the generated variable table.  The embedded
`apply_modifications` is a total function, so no exception is raised. -/
theorem empty_variable_name_is_noop (m : TestModifier)
    (pre suf : List DetectedInput) (inp : DetectedInput)
    (h1 : inp.variable_name = some []) (h2 : inp.new_value = none) :
    apply_modifications m (pre ++ inp :: suf) = apply_modifications m (pre ++ suf) ∧
      collectVariables (pre ++ inp :: suf) = collectVariables (pre ++ suf) := by
  have hfold : ∀ ls : List Str,
      (pre ++ inp :: suf).foldl applyOneInput ls = (pre ++ suf).foldl applyOneInput ls := by
    intro ls
    rw [List.foldl_append, List.foldl_append, List.foldl_cons,
      applyOneInput_empty_name _ inp h1 h2]
  have hvars : collectVariables (pre ++ inp :: suf) = collectVariables (pre ++ suf) := by
    unfold collectVariables
    rw [List.foldl_append, List.foldl_append, List.foldl_cons]
    have : pyTruthy inp.variable_name = false := by rw [h1]; simp [pyTruthy]
    rw [this]
    simp
  constructor
  · unfold apply_modifications
    rw [hfold, hvars]
  · exact hvars

/-- Input used by the C8 witness: empty variable name, no new value. -/
def c8Input : DetectedInput :=
  { line_number := 1, original_line := "page.fill(\"#name\", \"Ann\")".toList,
    value := "Ann".toList, input_type := InputType.text,
    selector := "#name".toList, action := "fill".toList,
    variable_name := some [], new_value := none }

/-- Witness for C8: a concrete single-input application — the code is
returned unchanged and the variable table stays empty. -/
theorem empty_variable_name_is_noop_witness :
    apply_modifications (TestModifier.ofCode ("page.fill(\"#name\", \"Ann\")".toList))
        [c8Input] =
      apply_modifications (TestModifier.ofCode ("page.fill(\"#name\", \"Ann\")".toList)) [] ∧
      collectVariables [c8Input] = collectVariables [] :=
  empty_variable_name_is_noop (TestModifier.ofCode ("page.fill(\"#name\", \"Ann\")".toList))
    [] [] c8Input rfl rfl

/-- C9: calling `apply_modifications` a second time on the same
modifier with the same input list returns exactly the same output
string — the method reads only the stored original lines and never
mutates the modifier, so its state transition is the identity. -/
theorem apply_modifications_idempotent (m : TestModifier) (inputs : List DetectedInput) :
    (apply_modifications_method (apply_modifications_method m inputs).2 inputs).1 =
      (apply_modifications_method m inputs).1 ∧
      (apply_modifications_method (apply_modifications_method m inputs).2 inputs).2 =
        (apply_modifications_method m inputs).2 :=
  ⟨rfl, rfl⟩

/-- Input used by the C7 counterexample: both `variable_name` and
`new_value` are non-`None`, but the variable name is the empty string. -/
def c7Input : DetectedInput :=
  { line_number := 1, original_line := "page.fill(\"#qty\", \"5\")".toList,
    value := "5".toList, input_type := InputType.number,
    selector := "#qty".toList, action := "fill".toList,
    variable_name := some [], new_value := some ("7".toList) }

/-- Counterexample for C7: for an input with `variable_name = Some ""`
and `new_value = Some "7"` — both non-`None` — the variable name does
NOT take precedence: the rewritten line carries the replacement literal
`"7"` and no `get_var` lookup, and no variable-table entry is created
(Python truthiness treats the empty name as unset). -/
theorem variable_precedence_counterexample :
    c7Input.variable_name ≠ none ∧ c7Input.new_value ≠ none ∧
      apply_modifications (TestModifier.ofCode ("page.fill(\"#qty\", \"5\")".toList))
          [c7Input] = "page.fill(\"#qty\", \"7\")".toList ∧
      containsSubstr
          (apply_modifications (TestModifier.ofCode ("page.fill(\"#qty\", \"5\")".toList))
            [c7Input]) ("get_var".toList) = false ∧
      collectVariables [c7Input] = [] := by
  refine ⟨by decide, by decide, by decide, by decide, by decide⟩

/-- C7 (amended): for an input whose variable name is set and non-empty,
the variable takes precedence over a simultaneously set (non-empty)
replacement value: the line rewrite substitutes the `get_var` lookup
(not the literal), the variable table binds the name to the replacement
value, and `display_value` equals that bound value. -/
theorem variable_name_precedence (inp : DetectedInput) (line : Str) (n v : Str)
    (hn : inp.variable_name = some n) (hne : n ≠ [])
    (hv : inp.new_value = some v) (hve : v ≠ []) :
    rewriteInputLine inp line =
      replaceAll (replaceAll line (dquoted inp.value) (getVarCall n))
        (squoted inp.value) (getVarCall n) ∧
      collectVariables [inp] = [(n, v)] ∧
      inp.display_value = v := by
  have htn : pyTruthy inp.variable_name = true := by
    rw [hn]
    simp [pyTruthy, hne]
  have htv : pyTruthy inp.new_value = true := by
    rw [hv]
    simp [pyTruthy, hve]
  refine ⟨?_, ?_, ?_⟩
  · unfold rewriteInputLine
    rw [htn, hn]
    simp
  · have htn2 : pyTruthy (some n) = true := by simp [pyTruthy, hne]
    have htv2 : pyTruthy (some v) = true := by simp [pyTruthy, hve]
    unfold collectVariables
    simp only [List.foldl_cons, List.foldl_nil, hn, hv, htn2, htv2, if_true]
    simp [dictUpsert]
  · unfold DetectedInput.display_value
    rw [hv]

/-- Input used by the C7 witness: non-empty variable name `QTY` and
non-empty replacement value `7`. -/
def c7wInput : DetectedInput :=
  { line_number := 1, original_line := "page.fill(\"#qty\", \"5\")".toList,
    value := "5".toList, input_type := InputType.number,
    selector := "#qty".toList, action := "fill".toList,
    variable_name := some ("QTY".toList), new_value := some ("7".toList) }

/-- Witness for C7: the amended precedence theorem applied on a
concrete input. -/
theorem variable_name_precedence_witness :
    rewriteInputLine c7wInput ("page.fill(\"#qty\", \"5\")".toList) =
      replaceAll (replaceAll ("page.fill(\"#qty\", \"5\")".toList)
        (dquoted c7wInput.value) (getVarCall ("QTY".toList)))
        (squoted c7wInput.value) (getVarCall ("QTY".toList)) ∧
      collectVariables [c7wInput] = [("QTY".toList, "7".toList)] ∧
      c7wInput.display_value = "7".toList :=
  variable_name_precedence c7wInput ("page.fill(\"#qty\", \"5\")".toList)
    ("QTY".toList) ("7".toList) rfl (by decide) rfl (by decide)

/- ===================================================================
   Part 7: identifier sanitization
   (postprocess.py, TestAnalyzer._generate_variable_name, lines
   134-172; recorder.py, PlaywrightRecorder._sanitize_test_name,
   lines 1003-1015).
   =================================================================== -/

/-- The character class `[a-zA-Z0-9_]` (the characters kept by the
sanitizing `re.sub`). -/
def idChar (c : Char) : Bool := c.isAlphanum || c == '_'

/-- `re.sub(r'[^a-zA-Z0-9_]', '_', s)`: every character outside the
identifier class becomes an underscore. -/
def subNonIdToUnderscore (s : Str) : Str :=
  s.map (fun c => if idChar c then c else '_')

/-- `re.sub(r'_+', '_', s)`: a maximal run of underscores collapses to
a single underscore (an underscore directly followed by another is
dropped). -/
def collapseUnderscores : Str → Str
  | [] => []
  | [c] => [c]
  | a :: b :: rest =>
    if a == '_' && b == '_' then collapseUnderscores (b :: rest)
    else a :: collapseUnderscores (b :: rest)

/-- Leading part of Python `str.strip('_')`. -/
def stripLeadUnderscores (s : Str) : Str := s.dropWhile (fun c => c == '_')

/-- Trailing part of Python `str.strip('_')`. -/
def stripTrailUnderscores : Str → Str
  | [] => []
  | c :: rest =>
    if (stripTrailUnderscores rest).isEmpty && c == '_' then []
    else c :: stripTrailUnderscores rest

/-- Python `str.strip('_')`. -/
def stripUnderscores (s : Str) : Str :=
  stripTrailUnderscores (stripLeadUnderscores s)

/-- Python `str.upper()` at the character level (`Char.toUpper` is the
ASCII uppercase map; it is only ever applied to sanitized identifier
characters). -/
def upperStr (s : Str) : Str := s.map Char.toUpper

/-- Case-insensitive match of a (lowercase) keyword at the head of
`s` — the regexes of `_generate_variable_name` run with
`re.IGNORECASE`. -/
def matchesKeyCI (key : Str) (s : Str) : Bool :=
  lowerStr (s.take key.length) == key

/-- The regex fragment `[=:]?\s*["\']([^"\']+)["\']` after a matched
keyword: an optional `=` or `:`, whitespace, an opening quote of either
kind, a nonempty capture of non-quote characters, and a closing quote
of either kind. -/
def attrCapture (s : Str) : Option Str :=
  let s1 := match s with
    | c :: r => if c == '=' || c == ':' then r else s
    | [] => s
  let s2 := s1.dropWhile isPySpace
  match s2 with
  | q :: r =>
    if quoteTok q then
      let cap := r.takeWhile (fun c => !quoteTok c)
      match r.drop cap.length with
      | q2 :: _ => if quoteTok q2 && !cap.isEmpty then some cap else none
      | [] => none
    else none
  | [] => none

/-- `re.search` of `KEY[=:]?\s*["\']([^"\']+)["\']` with alternation
over `keys`: positions are scanned left to right; at each position the
alternatives are tried in order; the first full match wins and its
capture group is returned. -/
def searchAttrKeys (keys : List Str) : Str → Option Str
  | [] => none
  | s@(_ :: rest) =>
    match keys.findSome? (fun k =>
        if matchesKeyCI k s then attrCapture (s.drop k.length) else none) with
    | some cap => some cap
    | none => searchAttrKeys keys rest

/-- The sanitizing tail of `_generate_variable_name` (lines 164-171):
non-identifier characters become underscores, underscore runs collapse,
leading/trailing underscores are stripped, the rest is uppercased; an
empty result becomes `INPUT_VALUE` and a digit-leading result is
prefixed with `INPUT_`. -/
def varNameSanitize (name : Str) : Str :=
  let n3 := upperStr (stripUnderscores (collapseUnderscores (subNonIdToUnderscore name)))
  if n3.isEmpty then "INPUT_VALUE".toList
  else if (n3.headD 'A').isDigit then "INPUT_".toList ++ n3
  else n3

/-- Embedding of `TestAnalyzer._generate_variable_name` (postprocess.py
lines 134-172): the selector is searched for `name`, `label`,
`placeholder`, then `id`/`test-id`/`data-testid` attributes; the first
capture (or, failing all, the value truncated to 20 characters) is the
basis name; the basis is sanitized — non-identifier characters become
underscores, underscore runs collapse, leading/trailing underscores are
stripped, the rest is uppercased — and an empty result becomes
`INPUT_VALUE` while a digit-leading result is prefixed with `INPUT_`.
The `action` argument is accepted and unused, as in the source. -/
def generate_variable_name (value selector action : Str) : Str :=
  let nameParts := [searchAttrKeys ["name".toList] selector,
                    searchAttrKeys ["label".toList] selector,
                    searchAttrKeys ["placeholder".toList] selector,
                    searchAttrKeys ["id".toList, "test-id".toList, "data-testid".toList]
                      selector].filterMap id
  let name := match nameParts with
    | p :: _ => p
    | [] => value.take 20
  varNameSanitize name

/-- Embedding of `PlaywrightRecorder._sanitize_test_name` (recorder.py
lines 1003-1015): lowercase, replace non-identifier characters with
underscores, collapse underscore runs, strip leading/trailing
underscores, prefix `test_` when the result starts with a digit, and
fall back to `recorded_test` when nothing is left. -/
def sanitize_test_name (name : Str) : Str :=
  let n3 := stripUnderscores (collapseUnderscores (subNonIdToUnderscore (lowerStr name)))
  if n3.isEmpty then "recorded_test".toList
  else if (n3.headD 'a').isDigit then "test_".toList ++ n3
  else n3

/-- The character class `[A-Z0-9_]`. -/
def upIdentChar (c : Char) : Bool := c.isUpper || c.isDigit || c == '_'

/-- The character class `[a-z0-9_]`. -/
def lowIdentChar (c : Char) : Bool := c.isLower || c.isDigit || c == '_'

/-- Match of `^[A-Z][A-Z0-9_]*$`. -/
def isUpperIdent (s : Str) : Bool :=
  match s with
  | [] => false
  | c :: rest => c.isUpper && rest.all upIdentChar

/-- Match of `^[a-z][a-z0-9_]*$`. -/
def isLowerIdent (s : Str) : Bool :=
  match s with
  | [] => false
  | c :: rest => c.isLower && rest.all lowIdentChar

/-- No two consecutive underscores. -/
def noDoubleUnderscore : Str → Bool
  | [] => true
  | [_] => true
  | a :: b :: rest => !(a == '_' && b == '_') && noDoubleUnderscore (b :: rest)

/-- Helper: the `UInt32` order agrees with the order of the underlying
naturals. -/
theorem uint32_le_iff (a b : UInt32) : a ≤ b ↔ a.toNat ≤ b.toNat := by
  rw [UInt32.le_def, BitVec.le_def]
  rfl

/-- Helper: `Char.isLower` in terms of the scalar value. -/
theorem char_isLower_iff (c : Char) : c.isLower = true ↔ 97 ≤ c.toNat ∧ c.toNat ≤ 122 := by
  simp only [Char.isLower, ge_iff_le, Bool.and_eq_true, decide_eq_true_eq, uint32_le_iff]
  exact Iff.rfl

/-- Helper: `Char.isUpper` in terms of the scalar value. -/
theorem char_isUpper_iff (c : Char) : c.isUpper = true ↔ 65 ≤ c.toNat ∧ c.toNat ≤ 90 := by
  simp only [Char.isUpper, ge_iff_le, Bool.and_eq_true, decide_eq_true_eq, uint32_le_iff]
  exact Iff.rfl

/-- Helper: `Char.isDigit` in terms of the scalar value. -/
theorem char_isDigit_iff (c : Char) : c.isDigit = true ↔ 48 ≤ c.toNat ∧ c.toNat ≤ 57 := by
  simp only [Char.isDigit, ge_iff_le, Bool.and_eq_true, decide_eq_true_eq, uint32_le_iff]
  exact Iff.rfl

/-- Helper: `Char.toUpper` fixes every non-lowercase character. -/
theorem toUpper_of_not_lower {c : Char} (h : c.isLower = false) : Char.toUpper c = c := by
  unfold Char.toUpper
  rw [if_neg]
  intro hb
  rw [← char_isLower_iff c, h] at hb
  exact Bool.false_ne_true hb

/-- Helper: `Char.toUpper` maps lowercase letters to uppercase letters. -/
theorem toUpper_isUpper_of_lower {c : Char} (h : c.isLower = true) :
    (Char.toUpper c).isUpper = true := by
  rw [char_isLower_iff] at h
  unfold Char.toUpper
  obtain ⟨h1, h2⟩ := h
  rw [if_pos ⟨h1, h2⟩]
  interval_cases h3 : c.toNat <;> decide

/-- Helper: `Char.toLower` fixes every non-uppercase character. -/
theorem toLower_of_not_upper {c : Char} (h : c.isUpper = false) : Char.toLower c = c := by
  unfold Char.toLower
  rw [if_neg]
  intro hb
  rw [← char_isUpper_iff c, h] at hb
  exact Bool.false_ne_true hb

/-- Helper: `Char.toLower` maps uppercase letters to lowercase letters. -/
theorem toLower_isLower_of_upper {c : Char} (h : c.isUpper = true) :
    (Char.toLower c).isLower = true := by
  rw [char_isUpper_iff] at h
  unfold Char.toLower
  obtain ⟨h1, h2⟩ := h
  rw [if_pos ⟨h1, h2⟩]
  interval_cases h3 : c.toNat <;> decide

/-- Helper: no character lowercases to an uppercase letter. -/
theorem toLower_isUpper_false (c : Char) : (Char.toLower c).isUpper = false := by
  by_cases h : c.isUpper = true
  · have hl := toLower_isLower_of_upper h
    rw [char_isLower_iff] at hl
    rw [Bool.eq_false_iff]
    intro hu
    rw [char_isUpper_iff] at hu
    omega
  · rw [toLower_of_not_upper (Bool.not_eq_true _ ▸ h)]
    exact Bool.not_eq_true _ |>.mp h

/-- Helper: uppercasing preserves being (or not being) the underscore. -/
theorem toUpper_beq_underscore (c : Char) : (Char.toUpper c == '_') = (c == '_') := by
  by_cases h : c.isLower = true
  · have hu := toUpper_isUpper_of_lower h
    have h1 : (Char.toUpper c == '_') = false := by
      rw [beq_eq_false_iff_ne]
      intro he
      rw [he] at hu
      exact Bool.false_ne_true hu
    have h2 : (c == '_') = false := by
      rw [beq_eq_false_iff_ne]
      intro he
      rw [he] at h
      exact Bool.false_ne_true h
    rw [h1, h2]
  · rw [toUpper_of_not_lower (Bool.not_eq_true _ ▸ h)]

/-- Helper: collapsing underscore runs only keeps characters of the
original string. -/
theorem mem_collapseUnderscores :
    ∀ (l : Str) (c : Char), c ∈ collapseUnderscores l → c ∈ l := by
  intro l
  induction l with
  | nil => simp [collapseUnderscores]
  | cons a t ih =>
    cases t with
    | nil => simp [collapseUnderscores]
    | cons b r =>
      intro c hc
      rw [collapseUnderscores] at hc
      by_cases hab : (a == '_' && b == '_') = true
      · rw [if_pos hab] at hc
        exact List.mem_cons_of_mem a (ih c hc)
      · rw [if_neg hab] at hc
        rcases List.mem_cons.mp hc with h | h
        · exact h ▸ List.mem_cons_self a _
        · exact List.mem_cons_of_mem a (ih c h)

/-- Helper: collapsing a nonempty string keeps its head. -/
theorem collapseUnderscores_cons :
    ∀ (r : Str) (b : Char), ∃ t, collapseUnderscores (b :: r) = b :: t := by
  intro r
  induction r with
  | nil => intro b; exact ⟨[], rfl⟩
  | cons x xs ih =>
    intro b
    rw [collapseUnderscores]
    by_cases h : (b == '_' && x == '_') = true
    · rw [if_pos h]
      obtain ⟨t, ht⟩ := ih x
      rw [ht]
      have hbx : b = x := by
        simp only [Bool.and_eq_true, beq_iff_eq] at h
        rw [h.1, h.2]
      exact ⟨t, by rw [hbx]⟩
    · rw [if_neg h]
      exact ⟨_, rfl⟩

/-- Helper: collapsing underscore runs leaves no two adjacent
underscores. -/
theorem noDD_collapseUnderscores :
    ∀ l : Str, noDoubleUnderscore (collapseUnderscores l) = true := by
  intro l
  induction l with
  | nil => rfl
  | cons a t ih =>
    cases t with
    | nil => rfl
    | cons b r =>
      rw [collapseUnderscores]
      by_cases h : (a == '_' && b == '_') = true
      · rw [if_pos h]
        exact ih
      · rw [if_neg h]
        obtain ⟨t', ht'⟩ := collapseUnderscores_cons r b
        rw [ht', noDoubleUnderscore, ← ht', ih]
        simp only [Bool.and_true]
        rw [Bool.not_eq_true] at h
        rw [h]
        rfl

/-- Helper: a tail of a double-underscore-free string is
double-underscore-free. -/
theorem noDD_tail {c : Char} {rest : Str}
    (h : noDoubleUnderscore (c :: rest) = true) : noDoubleUnderscore rest = true := by
  cases rest with
  | nil => rfl
  | cons b r =>
    rw [noDoubleUnderscore, Bool.and_eq_true] at h
    exact h.2

/-- Helper: stripping trailing underscores only keeps characters of the
original string. -/
theorem mem_stripTrailUnderscores :
    ∀ (l : Str) (c : Char), c ∈ stripTrailUnderscores l → c ∈ l := by
  intro l
  induction l with
  | nil => simp [stripTrailUnderscores]
  | cons a t ih =>
    intro c hc
    rw [stripTrailUnderscores] at hc
    by_cases hb : ((stripTrailUnderscores t).isEmpty && a == '_') = true
    · rw [if_pos hb] at hc
      simp at hc
    · rw [if_neg hb] at hc
      rcases List.mem_cons.mp hc with h | h
      · exact h ▸ List.mem_cons_self a _
      · exact List.mem_cons_of_mem a (ih c h)

/-- Helper: stripping trailing underscores from a nonempty string
either empties it or keeps its head. -/
theorem stripTrailUnderscores_shape (c : Char) (rest : Str) :
    stripTrailUnderscores (c :: rest) = [] ∨
      stripTrailUnderscores (c :: rest) = c :: stripTrailUnderscores rest := by
  rw [stripTrailUnderscores]
  by_cases hb : ((stripTrailUnderscores rest).isEmpty && c == '_') = true
  · rw [if_pos hb]
    exact Or.inl rfl
  · rw [if_neg hb]
    exact Or.inr rfl

/-- Helper: stripping trailing underscores preserves freedom from
double underscores. -/
theorem noDD_stripTrailUnderscores :
    ∀ l : Str, noDoubleUnderscore l = true →
      noDoubleUnderscore (stripTrailUnderscores l) = true := by
  intro l
  induction l with
  | nil => intro _; rfl
  | cons a t ih =>
    intro h
    rcases stripTrailUnderscores_shape a t with hs | hs
    · rw [hs]; rfl
    · rw [hs]
      cases t with
      | nil =>
        rw [show stripTrailUnderscores ([] : Str) = [] from rfl]
        rfl
      | cons b r =>
        have hbt := ih (noDD_tail h)
        rcases stripTrailUnderscores_shape b r with hs2 | hs2
        · rw [hs2]; rfl
        · rw [hs2]
          rw [hs2] at hbt
          rw [noDoubleUnderscore, hbt, Bool.and_true]
          rw [noDoubleUnderscore, Bool.and_eq_true] at h
          rw [h.1]

/-- Helper: dropping a prefix preserves freedom from double
underscores. -/
theorem noDD_dropWhile (p : Char → Bool) :
    ∀ l : Str, noDoubleUnderscore l = true →
      noDoubleUnderscore (l.dropWhile p) = true := by
  intro l
  induction l with
  | nil => intro _; rfl
  | cons a t ih =>
    intro h
    rw [List.dropWhile_cons]
    by_cases hp : p a = true
    · rw [if_pos hp]
      exact ih (noDD_tail h)
    · rw [if_neg hp]
      exact h

/-- Helper: after `dropWhile (· == '_')` the head, when present, is not
an underscore. -/
theorem stripLeadUnderscores_head :
    ∀ l : Str, stripLeadUnderscores l = [] ∨
      (((stripLeadUnderscores l).headD 'A') == '_') = false := by
  intro l
  induction l with
  | nil => exact Or.inl rfl
  | cons a t ih =>
    unfold stripLeadUnderscores at *
    rw [List.dropWhile_cons]
    by_cases hp : (a == '_') = true
    · rw [if_pos hp]
      exact ih
    · rw [if_neg hp]
      right
      simpa using hp

/-- Helper: `stripUnderscores` only keeps characters of the original
string. -/
theorem mem_stripUnderscores (l : Str) (c : Char) (h : c ∈ stripUnderscores l) :
    c ∈ l := by
  unfold stripUnderscores at h
  have h1 := mem_stripTrailUnderscores _ _ h
  unfold stripLeadUnderscores at h1
  exact (List.dropWhile_sublist _).subset h1

/-- Helper: `stripUnderscores` preserves freedom from double
underscores. -/
theorem noDD_stripUnderscores (l : Str) (h : noDoubleUnderscore l = true) :
    noDoubleUnderscore (stripUnderscores l) = true :=
  noDD_stripTrailUnderscores _ (noDD_dropWhile _ _ h)

/-- Helper: the head of `stripUnderscores`, when present, is not an
underscore. -/
theorem stripUnderscores_head (l : Str) :
    stripUnderscores l = [] ∨ (((stripUnderscores l).headD 'A') == '_') = false := by
  unfold stripUnderscores
  rcases stripLeadUnderscores_head l with h | h
  · rw [h]
    exact Or.inl rfl
  · cases hsl : stripLeadUnderscores l with
    | nil => exact Or.inl rfl
    | cons a t =>
      rcases stripTrailUnderscores_shape a t with hs | hs
      · exact Or.inl hs
      · right
        rw [hs]
        rw [hsl] at h
        simpa using h

/-- Helper: uppercasing a string preserves freedom from double
underscores (uppercasing never creates or destroys an underscore). -/
theorem noDD_upperStr :
    ∀ l : Str, noDoubleUnderscore (upperStr l) = noDoubleUnderscore l := by
  intro l
  induction l with
  | nil => rfl
  | cons a t ih =>
    cases t with
    | nil => rfl
    | cons b r =>
      unfold upperStr at *
      rw [List.map_cons, List.map_cons, noDoubleUnderscore, noDoubleUnderscore,
        ← List.map_cons, ih, toUpper_beq_underscore, toUpper_beq_underscore]

/-- Helper: the substitution step only produces identifier characters. -/
theorem idChar_subNonId (s : Str) :
    ∀ c ∈ subNonIdToUnderscore s, idChar c = true := by
  intro c hc
  unfold subNonIdToUnderscore at hc
  obtain ⟨x, _, rfl⟩ := List.mem_map.mp hc
  by_cases h : idChar x = true
  · rw [if_pos h]
    exact h
  · rw [if_neg h]
    decide

/-- Helper: uppercasing an identifier character lands in `[A-Z0-9_]`. -/
theorem upIdentChar_toUpper {c : Char} (h : idChar c = true) :
    upIdentChar (Char.toUpper c) = true := by
  by_cases hl : c.isLower = true
  · unfold upIdentChar
    rw [toUpper_isUpper_of_lower hl]
    rfl
  · rw [Bool.not_eq_true] at hl
    rw [toUpper_of_not_lower hl]
    unfold idChar Char.isAlphanum Char.isAlpha at h
    unfold upIdentChar
    rw [hl] at h
    simpa using h

/-- Helper: after lowercasing, the substitution step only produces
characters of `[a-z0-9_]` (no character lowercases to an uppercase
letter). -/
theorem lowIdentChar_subLower (s : Str) :
    ∀ c ∈ subNonIdToUnderscore (lowerStr s), lowIdentChar c = true := by
  intro c hc
  unfold subNonIdToUnderscore lowerStr at hc
  rw [List.map_map] at hc
  obtain ⟨x, _, rfl⟩ := List.mem_map.mp hc
  simp only [Function.comp_apply]
  by_cases h : idChar (Char.toLower x) = true
  · rw [if_pos h]
    have hup := toLower_isUpper_false x
    unfold idChar Char.isAlphanum Char.isAlpha at h
    unfold lowIdentChar
    rw [hup] at h
    simpa using h
  · rw [if_neg h]
    decide

/-- Helper: an identifier character that is neither an underscore nor
uppercases to a digit uppercases to an uppercase letter. -/
theorem upIdent_head_isUpper {c : Char} (h : idChar c = true)
    (hne : (c == '_') = false) (hd : (Char.toUpper c).isDigit = false) :
    (Char.toUpper c).isUpper = true := by
  by_cases hl : c.isLower = true
  · exact toUpper_isUpper_of_lower hl
  · rw [Bool.not_eq_true] at hl
    rw [toUpper_of_not_lower hl] at hd ⊢
    unfold idChar Char.isAlphanum Char.isAlpha at h
    rw [hl, hd, hne] at h
    simpa using h

/-- Helper: a `[a-z0-9_]` character that is neither an underscore nor a
digit is a lowercase letter. -/
theorem lowIdent_head_isLower {c : Char} (h : lowIdentChar c = true)
    (hne : (c == '_') = false) (hd : c.isDigit = false) : c.isLower = true := by
  unfold lowIdentChar at h
  rw [hne, hd] at h
  simpa using h

/-- Helper: consing a character onto a double-underscore-free string
stays double-underscore-free when the pair at the junction is not two
underscores. -/
theorem noDD_cons {a : Char} {l : Str}
    (h1 : (a == '_') = false ∨ ((l.headD 'A') == '_') = false)
    (h2 : noDoubleUnderscore l = true) : noDoubleUnderscore (a :: l) = true := by
  cases l with
  | nil => rfl
  | cons b r =>
    rw [noDoubleUnderscore, h2, Bool.and_true]
    rcases h1 with h | h
    · rw [h]
      rfl
    · rw [List.headD_cons] at h
      rw [h]
      simp

/-- Helper: the three claimed shape properties of the sanitizing tail
of `_generate_variable_name`, for an arbitrary basis name. -/
theorem varNameSanitize_props (base : Str) :
    isUpperIdent (varNameSanitize base) = true ∧
      noDoubleUnderscore (varNameSanitize base) = true ∧
      varNameSanitize base ≠ [] := by
  unfold varNameSanitize
  have hcls2 : ∀ c ∈ stripUnderscores (collapseUnderscores (subNonIdToUnderscore base)),
      idChar c = true := by
    intro c hc
    exact idChar_subNonId base c
      (mem_collapseUnderscores _ c (mem_stripUnderscores _ c hc))
  have hnoDD2 : noDoubleUnderscore
      (stripUnderscores (collapseUnderscores (subNonIdToUnderscore base))) = true :=
    noDD_stripUnderscores _ (noDD_collapseUnderscores _)
  have hhead := stripUnderscores_head (collapseUnderscores (subNonIdToUnderscore base))
  cases hE : stripUnderscores (collapseUnderscores (subNonIdToUnderscore base)) with
  | nil =>
    refine ⟨by decide, by decide, by decide⟩
  | cons h t =>
    rw [hE] at hcls2 hnoDD2 hhead
    have hne : (h == '_') = false := by
      rcases hhead with hh | hh
      · exact absurd hh (by simp)
      · rw [List.headD_cons] at hh
        exact hh
    have hclsTail : ∀ c ∈ upperStr t, upIdentChar c = true := by
      intro c hc
      obtain ⟨x, hx, rfl⟩ := List.mem_map.mp hc
      exact upIdentChar_toUpper (hcls2 x (List.mem_cons_of_mem h hx))
    have hnoDD3 : noDoubleUnderscore (upperStr (h :: t)) = true := by
      rw [noDD_upperStr]
      exact hnoDD2
    have hclsHead : idChar h = true := hcls2 h (List.mem_cons_self h t)
    rw [show upperStr (h :: t) = Char.toUpper h :: upperStr t from rfl]
    simp only [List.isEmpty_cons, Bool.false_eq_true, if_false, List.headD_cons]
    by_cases hd : (Char.toUpper h).isDigit = true
    · rw [if_pos hd]
      have hu : (Char.toUpper h == '_') = false := by
        rw [beq_eq_false_iff_ne]
        intro he
        rw [he] at hd
        exact absurd hd (by decide)
      rw [show ("INPUT_".toList : Str) = ['I', 'N', 'P', 'U', 'T', '_'] from rfl]
      refine ⟨?_, ?_, by simp⟩
      · unfold isUpperIdent
        simp only [List.cons_append, List.nil_append]
        refine (Bool.and_eq_true _ _).mpr ⟨by decide, ?_⟩
        rw [List.all_eq_true]
        intro d hd2
        simp only [List.mem_cons] at hd2
        rcases hd2 with rfl | rfl | rfl | rfl | rfl | hd2
        · decide
        · decide
        · decide
        · decide
        · decide
        · rcases hd2 with rfl | hd3
          · unfold upIdentChar
            rw [hd]
            simp
          · exact hclsTail d hd3
      · simp only [List.cons_append, List.nil_append]
        refine noDD_cons (Or.inl (by decide)) ?_
        refine noDD_cons (Or.inl (by decide)) ?_
        refine noDD_cons (Or.inl (by decide)) ?_
        refine noDD_cons (Or.inl (by decide)) ?_
        refine noDD_cons (Or.inl (by decide)) ?_
        refine noDD_cons (Or.inr ?_) ?_
        · rw [List.headD_cons]
          exact hu
        · rw [show Char.toUpper h :: upperStr t = upperStr (h :: t) from rfl]
          exact hnoDD3
    · rw [Bool.not_eq_true] at hd
      rw [if_neg (by rw [hd]; exact Bool.false_ne_true)]
      refine ⟨?_, hnoDD3, by simp⟩
      unfold isUpperIdent
      refine (Bool.and_eq_true _ _).mpr ⟨upIdent_head_isUpper hclsHead hne hd, ?_⟩
      rw [List.all_eq_true]
      intro d hd2
      exact hclsTail d hd2

/-- C4: `_generate_variable_name` is deterministic — equal inputs give
equal outputs — and its output matches `^[A-Z][A-Z0-9_]*$` (covering
the `INPUT_`-prefixed and `INPUT_VALUE` fallback forms), is non-empty,
and contains no two consecutive underscores. -/
theorem generate_variable_name_spec (value selector action value2 selector2 action2 : Str)
    (hv : value = value2) (hs : selector = selector2) (ha : action = action2) :
    generate_variable_name value selector action =
        generate_variable_name value2 selector2 action2 ∧
      isUpperIdent (generate_variable_name value selector action) = true ∧
      noDoubleUnderscore (generate_variable_name value selector action) = true ∧
      generate_variable_name value selector action ≠ [] := by
  subst hv
  subst hs
  subst ha
  refine ⟨rfl, ?_, ?_, ?_⟩
  · exact (varNameSanitize_props _).1
  · exact (varNameSanitize_props _).2.1
  · exact (varNameSanitize_props _).2.2

/-- Witness for C4: the specification applied on the end-to-end example
of the spec — value `2024-03-15` with selector `name="OrderDate"` —
together with the concrete suggested name it produces. -/
theorem generate_variable_name_spec_witness :
    isUpperIdent (generate_variable_name ("2024-03-15".toList)
        ("name=\"OrderDate\"".toList) ("fill".toList)) = true ∧
      generate_variable_name ("2024-03-15".toList) ("name=\"OrderDate\"".toList)
        ("fill".toList) = "ORDERDATE".toList :=
  ⟨(generate_variable_name_spec ("2024-03-15".toList) ("name=\"OrderDate\"".toList)
      ("fill".toList) _ _ _ rfl rfl rfl).2.1,
   by decide⟩

/-- C10: `_sanitize_test_name` always returns a non-empty string
matching `^[a-z][a-z0-9_]*$` — a valid Python identifier — falling back
to `recorded_test` when sanitization leaves nothing and prefixing
`test_` when the result would start with a digit. -/
theorem sanitize_test_name_valid (name : Str) :
    sanitize_test_name name ≠ [] ∧ isLowerIdent (sanitize_test_name name) = true := by
  unfold sanitize_test_name
  have hcls2 : ∀ c ∈ stripUnderscores (collapseUnderscores
      (subNonIdToUnderscore (lowerStr name))), lowIdentChar c = true := by
    intro c hc
    exact lowIdentChar_subLower name c
      (mem_collapseUnderscores _ c (mem_stripUnderscores _ c hc))
  have hhead := stripUnderscores_head (collapseUnderscores
    (subNonIdToUnderscore (lowerStr name)))
  cases hE : stripUnderscores (collapseUnderscores (subNonIdToUnderscore (lowerStr name))) with
  | nil =>
    refine ⟨by decide, by decide⟩
  | cons h t =>
    rw [hE] at hcls2 hhead
    have hne : (h == '_') = false := by
      rcases hhead with hh | hh
      · exact absurd hh (by simp)
      · rw [List.headD_cons] at hh
        exact hh
    have hclsHead : lowIdentChar h = true := hcls2 h (List.mem_cons_self h t)
    have hclsTail : ∀ c ∈ t, lowIdentChar c = true := fun c hc =>
      hcls2 c (List.mem_cons_of_mem h hc)
    simp only [List.isEmpty_cons, Bool.false_eq_true, if_false, List.headD_cons]
    by_cases hd : h.isDigit = true
    · rw [if_pos hd]
      rw [show ("test_".toList : Str) = ['t', 'e', 's', 't', '_'] from rfl]
      refine ⟨by simp, ?_⟩
      unfold isLowerIdent
      simp only [List.cons_append, List.nil_append]
      refine (Bool.and_eq_true _ _).mpr ⟨by decide, ?_⟩
      rw [List.all_eq_true]
      intro d hd2
      simp only [List.mem_cons] at hd2
      rcases hd2 with rfl | rfl | rfl | rfl | hd2
      · decide
      · decide
      · decide
      · decide
      · rcases hd2 with rfl | hd3
        · unfold lowIdentChar
          rw [hd]
          simp
        · exact hclsTail d hd3
    · rw [Bool.not_eq_true] at hd
      rw [if_neg (by rw [hd]; exact Bool.false_ne_true)]
      refine ⟨by simp, ?_⟩
      unfold isLowerIdent
      refine (Bool.and_eq_true _ _).mpr ⟨lowIdent_head_isLower hclsHead hne hd, ?_⟩
      rw [List.all_eq_true]
      intro d hd2
      exact hclsTail d hd2

end PlaywrightUI
